import Mathlib

/-!
Verification development for the CosyVoice2 TTS orchestration layer.

The definitions below are a shallow embedding of the Python sources
(src/tts_service.py, src/main.py, src/config.py).  Pure functions are
translated directly; calls into external libraries (torchaudio, librosa,
scipy, the neural engine itself) are taken as explicit function
parameters or outcome oracles, with doc comments pointing at the
corresponding call site.
-/

set_option autoImplicit false

namespace CosyVoice2

/-- Audio container formats (src/tts_service.py, `class AudioFormat(Enum)`:
values "wav", "mp3", "flac"). -/
inductive AudioFormat where
  | wav
  | mp3
  | flac
deriving DecidableEq, Repr

/-- Python `AudioFormat(value)` enum lookup: succeeds exactly on the three
declared enum values, raises `ValueError` (here: `none`) otherwise. -/
def AudioFormat.fromString : String → Option AudioFormat
  | "wav" => some .wav
  | "mp3" => some .mp3
  | "flac" => some .flac
  | _ => none

/-- Synthesis modes (src/tts_service.py, `class SynthesisMode(Enum)`). -/
inductive SynthesisMode where
  | basic
  | zeroShot
  | crossLingual
  | instruct
  | instruct2
  | voiceConversion
deriving DecidableEq, Repr

/-- Python `SynthesisMode(value)` enum lookup: succeeds exactly on the six
declared enum values, raises `ValueError` (here: `none`) otherwise. -/
def SynthesisMode.fromString : String → Option SynthesisMode
  | "basic" => some .basic
  | "zero_shot" => some .zeroShot
  | "cross_lingual" => some .crossLingual
  | "instruct" => some .instruct
  | "instruct2" => some .instruct2
  | "voice_conversion" => some .voiceConversion
  | _ => none

/-- Matches the regex `[一-鿿]` used in
`is_different_language` (src/main.py:605). -/
def isChineseChar (c : Char) : Bool :=
  0x4e00 ≤ c.toNat && c.toNat ≤ 0x9fff

/-- Matches the regex `[a-zA-Z]` used in `is_different_language`
(src/main.py:610). -/
def isEnglishChar (c : Char) : Bool :=
  (0x41 ≤ c.toNat && c.toNat ≤ 0x5a) || (0x61 ≤ c.toNat && c.toNat ≤ 0x7a)

/-- `chinese_pattern.search(text)` truthiness (src/main.py:606-607). -/
def hasChinese (s : String) : Bool := s.data.any isChineseChar

/-- `english_pattern.search(text)` truthiness (src/main.py:611-612). -/
def hasEnglish (s : String) : Bool := s.data.any isEnglishChar

/-- `is_different_language(text1, text2)` (src/main.py:600-620): true when
one text is exclusively CJK (has CJK, no Latin) and the other exclusively
Latin (has Latin, no CJK), in either order. -/
def isDifferentLanguage (text1 text2 : String) : Bool :=
  if (hasChinese text1 && !hasEnglish text1) && (hasEnglish text2 && !hasChinese text2) then
    true
  else if (hasEnglish text1 && !hasChinese text1) && (hasChinese text2 && !hasEnglish text2) then
    true
  else
    false

/-- Python truthiness of an `Optional[str]` field: `None` and `""` are
falsy, any non-empty string is truthy. -/
def strSet : Option String → Bool
  | none => false
  | some s => !s.isEmpty

/-- The fields of `UltimateTTSRequest` (src/main.py:384-421) that take part
in auto-mode resolution. -/
structure UltimateTTSRequest where
  text : String
  mode : String
  language : String
  promptText : Option String
  instructText : Option String
  speaker : Option String
deriving DecidableEq, Repr

/-- Auto-mode selection in `_ultimate_tts_impl` (src/main.py:514-529).
`audioPresent` is the truthiness of `prompt_audio_input` (an uploaded
file's bytes or a `prompt_audio_url`). -/
def resolveAutoMode (r : UltimateTTSRequest) (audioPresent : Bool) : String :=
  if r.mode = "auto" then
    if strSet r.instructText && audioPresent then
      "instruct2"
    else if strSet r.promptText && audioPresent then
      if r.language ≠ "zh" || isDifferentLanguage r.text (r.promptText.getD "") then
        "cross_lingual"
      else
        "zero_shot"
    else if strSet r.speaker then
      "sft"
    else
      "basic"
  else
    r.mode

/-- `mode_mapping.get(auto_mode, SynthesisMode.BASIC)` (src/main.py:532-542). -/
def modeMapping : String → SynthesisMode
  | "auto" => .basic
  | "sft" => .basic
  | "zero_shot" => .zeroShot
  | "cross_lingual" => .crossLingual
  | "instruct" => .instruct
  | "instruct2" => .instruct2
  | "voice_conversion" => .voiceConversion
  | _ => .basic

/-- The synthesis mode ultimately placed into the `TTSRequest`
(src/main.py:542-547). -/
def resolveSynthesisMode (r : UltimateTTSRequest) (audioPresent : Bool) : SynthesisMode :=
  modeMapping (resolveAutoMode r audioPresent)

/-- `s` consists exclusively of the CJK script in the heuristic's sense:
it contains a CJK character and no Latin letter. -/
def exclusivelyChinese (s : String) : Bool := hasChinese s && !hasEnglish s

/-- `s` consists exclusively of the Latin script in the heuristic's sense:
it contains a Latin letter and no CJK character. -/
def exclusivelyEnglish (s : String) : Bool := hasEnglish s && !hasChinese s

/-- The claim's script condition: each text is exclusively one script and
the two scripts differ. -/
def scriptsExclusivelyDiffer (t1 t2 : String) : Prop :=
  (exclusivelyChinese t1 = true ∧ exclusivelyEnglish t2 = true) ∨
  (exclusivelyEnglish t1 = true ∧ exclusivelyChinese t2 = true)

instance (t1 t2 : String) : Decidable (scriptsExclusivelyDiffer t1 t2) := by
  unfold scriptsExclusivelyDiffer
  infer_instance

/-- Structural helper for `chunksOf`: `fuel` bounds the number of chunks
still to be produced (any `fuel ≥ l.length` is enough when `k ≠ 0`). -/
def chunksOfAux {α : Type} (k : Nat) : Nat → List α → List (List α)
  | 0, _ => []
  | _, [] => []
  | fuel + 1, a :: as => ((a :: as).take k) :: chunksOfAux k fuel ((a :: as).drop k)

/-- Fixed-size chunking, as produced by the slicing loop
`for i in range(0, len(audio_bytes), chunk_size): yield audio_bytes[i:i + chunk_size]`
(src/tts_service.py:769-770); also reused below for 512-bit MD5 blocks.
Implemented with a fuel argument (the list length suffices) so that it is
structurally recursive. -/
def chunksOf {α : Type} (k : Nat) (l : List α) : List (List α) :=
  chunksOfAux k l.length l

/-- `s.startswith(pre)` over the character list (kernel-computable model
of Python `str.startswith`). -/
def startsWithStr (pre s : String) : Bool := pre.data.isPrefixOf s.data

/-- `s.endswith(suf)` over the character list (kernel-computable model of
Python `str.endswith`). -/
def endsWithStr (suf s : String) : Bool := suf.data.isSuffixOf s.data

/-- The protected fixture file names spared by every cleanup site
(src/tts_service.py:488, 776, 938, 977). -/
def protectedFixtures : List String := ["test_audio_better.wav", "test_audio_short.wav"]

/-- `path.endswith(('test_audio_better.wav', 'test_audio_short.wav'))`. -/
def isProtectedFixture (p : String) : Bool :=
  protectedFixtures.any (fun f => endsWithStr f p)

/-- One record of `self.custom_speakers[speaker_id]`
(src/tts_service.py:909-916).  `createdAt` is `str(uuid.uuid4())` in the
source, an external random value irrelevant to the claims. -/
structure CustomSpeakerInfo where
  speakerName : String
  speakerId : String
  promptText : String
  promptAudioPath : String
  description : String
  createdAt : String
deriving DecidableEq, Repr

/-- The in-memory registry `self.custom_speakers` (a Python dict keyed by
speaker id), as an association list in insertion order. -/
abbrev SpeakerRegistry := List (String × CustomSpeakerInfo)

/-- The on-disk state relevant to the registry claims: the set of existing
file paths. -/
abbrev FileSystem := List String

/-- `os.path.exists` over the modelled file system. -/
def fileExists (fs : FileSystem) (p : String) : Bool := fs.contains p

/-- Python dict assignment `d[k] = v`: overwrite an existing key in place,
otherwise append. -/
def dictInsert (reg : SpeakerRegistry) (k : String) (v : CustomSpeakerInfo) :
    SpeakerRegistry :=
  if reg.any (fun kv => kv.1 == k) then
    reg.map (fun kv => if kv.1 == k then (k, v) else kv)
  else
    reg ++ [(k, v)]

/-- Result dict of `delete_custom_speaker`: either within
`.success = True` or `.success = False` plus an error string. -/
structure DeleteResult where
  success : Bool
  error : Option String
deriving DecidableEq, Repr

/-- `CosyVoice2Service.delete_custom_speaker` (src/tts_service.py:929-954).
Returns the result dict together with the registry and file system after
the call.  If the id is present, the backing audio file is unlinked unless
it matches a protected fixture name, then the record is removed; an absent
id yields a not-found failure dict. -/
def deleteCustomSpeaker (reg : SpeakerRegistry) (fs : FileSystem) (speakerId : String) :
    DeleteResult × SpeakerRegistry × FileSystem :=
  match reg.lookup speakerId with
  | some info =>
      let fs2 :=
        if fileExists fs info.promptAudioPath && !isProtectedFixture info.promptAudioPath then
          fs.filter (fun p => p != info.promptAudioPath)
        else
          fs
      (⟨true, none⟩, reg.filter (fun kv => kv.1 != speakerId), fs2)
  | none => (⟨false, some "音色不存在"⟩, reg, fs)

/-- A concrete registry record used by witnesses. -/
def sampleSpeakerInfo : CustomSpeakerInfo :=
  ⟨"alice", "0123456789abcdef", "你好，世界", "custom_speakers/0123456789abcdef.wav",
    "自定义音色: alice", "uuid-0"⟩

/-- UTF-8 encoding of one code point, modelling Python `str.encode()`. -/
def utf8Bytes (c : Char) : List Nat :=
  let n := c.toNat
  if n < 128 then [n]
  else if n < 2048 then [192 + n / 64, 128 + n % 64]
  else if n < 65536 then [224 + n / 4096, 128 + (n / 64) % 64, 128 + n % 64]
  else [240 + n / 262144, 128 + (n / 4096) % 64, 128 + (n / 64) % 64, 128 + n % 64]

/-- The UTF-8 byte sequence of a string (Python `s.encode()`). -/
def strBytes (s : String) : List Nat := (s.data.map utf8Bytes).flatten

/-- 32-bit left rotation over `Nat` (words are kept below 2^32). -/
def rotl32 (x s : Nat) : Nat :=
  ((x <<< s) % 4294967296) ||| (x >>> (32 - s))

/-- MD5 per-round left-rotation amounts (RFC 1321). -/
def md5S : List Nat :=
  [7, 12, 17, 22, 7, 12, 17, 22, 7, 12, 17, 22, 7, 12, 17, 22,
   5, 9, 14, 20, 5, 9, 14, 20, 5, 9, 14, 20, 5, 9, 14, 20,
   4, 11, 16, 23, 4, 11, 16, 23, 4, 11, 16, 23, 4, 11, 16, 23,
   6, 10, 15, 21, 6, 10, 15, 21, 6, 10, 15, 21, 6, 10, 15, 21]

/-- MD5 sine-derived additive constants (RFC 1321). -/
def md5K : List Nat :=
  [0xd76aa478, 0xe8c7b756, 0x242070db, 0xc1bdceee,
   0xf57c0faf, 0x4787c62a, 0xa8304613, 0xfd469501,
   0x698098d8, 0x8b44f7af, 0xffff5bb1, 0x895cd7be,
   0x6b901122, 0xfd987193, 0xa679438e, 0x49b40821,
   0xf61e2562, 0xc040b340, 0x265e5a51, 0xe9b6c7aa,
   0xd62f105d, 0x02441453, 0xd8a1e681, 0xe7d3fbc8,
   0x21e1cde6, 0xc33707d6, 0xf4d50d87, 0x455a14ed,
   0xa9e3e905, 0xfcefa3f8, 0x676f02d9, 0x8d2a4c8a,
   0xfffa3942, 0x8771f681, 0x6d9d6122, 0xfde5380c,
   0xa4beea44, 0x4bdecfa9, 0xf6bb4b60, 0xbebfbc70,
   0x289b7ec6, 0xeaa127fa, 0xd4ef3085, 0x04881d05,
   0xd9d4d039, 0xe6db99e5, 0x1fa27cf8, 0xc4ac5665,
   0xf4292244, 0x432aff97, 0xab9423a7, 0xfc93a039,
   0x655b59c3, 0x8f0ccc92, 0xffeff47d, 0x85845dd1,
   0x6fa87e4f, 0xfe2ce6e0, 0xa3014314, 0x4e0811a1,
   0xf7537e82, 0xbd3af235, 0x2ad7d2bb, 0xeb86d391]

/-- The four MD5 round mixing functions, selected by operation index. -/
def md5F (i b c d : Nat) : Nat :=
  if i < 16 then (b &&& c) ||| ((4294967295 ^^^ b) &&& d)
  else if i < 32 then (d &&& b) ||| ((4294967295 ^^^ d) &&& c)
  else if i < 48 then b ^^^ c ^^^ d
  else c ^^^ (b ||| (4294967295 ^^^ d))

/-- The MD5 message-word index for operation `i`. -/
def md5G (i : Nat) : Nat :=
  if i < 16 then i
  else if i < 32 then (5 * i + 1) % 16
  else if i < 48 then (3 * i + 5) % 16
  else (7 * i) % 16

/-- The four 32-bit MD5 chaining words. -/
structure MD5State where
  a : Nat
  b : Nat
  c : Nat
  d : Nat
deriving DecidableEq, Repr

/-- Group a byte list into little-endian 32-bit words. -/
def bytesToWords : List Nat → List Nat
  | b0 :: b1 :: b2 :: b3 :: rest =>
      (b0 + 256 * b1 + 65536 * b2 + 16777216 * b3) :: bytesToWords rest
  | _ => []

/-- One of the 64 MD5 operations on a 16-word block `M`. -/
def md5Step (M : List Nat) (st : MD5State) (i : Nat) : MD5State :=
  let f := (md5F i st.b st.c st.d + st.a + md5K.getD i 0 + M.getD (md5G i) 0) % 4294967296
  ⟨st.d, (st.b + rotl32 f (md5S.getD i 0)) % 4294967296, st.b, st.c⟩

/-- Absorb one 64-byte block into the MD5 state. -/
def md5ProcessChunk (st : MD5State) (chunk : List Nat) : MD5State :=
  let M := bytesToWords chunk
  let r := (List.range 64).foldl (md5Step M) st
  ⟨(st.a + r.a) % 4294967296, (st.b + r.b) % 4294967296,
   (st.c + r.c) % 4294967296, (st.d + r.d) % 4294967296⟩

/-- The `k` low-order bytes of `x`, little-endian. -/
def natToLEBytes (x : Nat) : Nat → List Nat
  | 0 => []
  | k + 1 => (x % 256) :: natToLEBytes (x / 256) k

/-- MD5 padding: a 0x80 byte, zeros to 56 mod 64, then the bit length as a
little-endian 64-bit integer. -/
def md5Pad (msg : List Nat) : List Nat :=
  let len := msg.length
  let zeros := (64 + 56 - ((len + 1) % 64)) % 64
  msg ++ [128] ++ List.replicate zeros 0 ++ natToLEBytes (len * 8) 8

/-- The 16-byte MD5 digest of a byte sequence (RFC 1321), modelling
Python `hashlib.md5(...).digest()`. -/
def md5Bytes (msg : List Nat) : List Nat :=
  let st := (chunksOf 64 (md5Pad msg)).foldl md5ProcessChunk
    ⟨0x67452301, 0xefcdab89, 0x98badcfe, 0x10325476⟩
  natToLEBytes st.a 4 ++ natToLEBytes st.b 4 ++ natToLEBytes st.c 4 ++ natToLEBytes st.d 4

/-- Lower-case hexadecimal digit. -/
def hexDigit (n : Nat) : Char :=
  if n < 10 then Char.ofNat (48 + n) else Char.ofNat (87 + n)

/-- Two lower-case hex characters of one byte. -/
def byteToHex (b : Nat) : List Char := [hexDigit (b / 16), hexDigit (b % 16)]

/-- `hashlib.md5(...).hexdigest()` as a character list. -/
def md5Hex (msg : List Nat) : List Char := ((md5Bytes msg).map byteToHex).flatten

/-- The speaker-id derivation of `add_custom_speaker`
(src/tts_service.py:884):
`hashlib.md5(f"NAME_TEXT".encode()).hexdigest()[:16]`. -/
def makeSpeakerId (speakerName promptText : String) : String :=
  String.mk ((md5Hex (strBytes (speakerName ++ "_" ++ promptText))).take 16)

/-- A `Union[str, bytes]` reference-audio argument: either a Python string
(local path or URL) or a byte buffer. -/
inductive AudioInput where
  | str (s : String)
  | bytes
deriving DecidableEq, Repr

/-- Result dict of `add_custom_speaker`: `.success = True` with the
speaker id, or `.success = False` plus an error string. -/
structure AddSpeakerResult where
  success : Bool
  speakerId : Option String
  error : Option String
deriving DecidableEq, Repr

/-- `CosyVoice2Service.add_custom_speaker` (src/tts_service.py:866-923).
External effects appear as oracles: `validates` is the verdict of
`AudioFileHandler.validate_audio_file`, `pathExists` models
`os.path.exists`, and `processedPath` is the local path returned by
`AudioFileHandler.process_audio_input` for the given input.  The on-disk
copy to `custom_speakers/` and temp-file cleanup are side effects not
needed by the claims about the returned id and the registry entry. -/
def addCustomSpeaker (validates : Bool) (pathExists : String → Bool)
    (speakerName promptText : String) (promptAudio : AudioInput)
    (processedPath : String) (description : Option String)
    (reg : SpeakerRegistry) : AddSpeakerResult × SpeakerRegistry :=
  if !validates then
    (⟨false, none, some "音频文件格式无效"⟩, reg)
  else
    let speakerId := makeSpeakerId speakerName promptText
    let finalAudioPath :=
      match promptAudio with
      | .str s =>
          if !(startsWithStr "http://" s) && !(startsWithStr "https://" s) then
            if pathExists s then s else processedPath
          else
            "custom_speakers/" ++ speakerId ++ ".wav"
      | .bytes => "custom_speakers/" ++ speakerId ++ ".wav"
    let info : CustomSpeakerInfo :=
      ⟨speakerName, speakerId, promptText, finalAudioPath,
        description.getD ("自定义音色: " ++ speakerName), ""⟩
    (⟨true, some speakerId, none⟩, dictInsert reg speakerId info)

/-- Peak absolute amplitude of a waveform, `speech.abs().max()`, with the
empty waveform given peak 0. -/
def peakAbs (l : List ℚ) : ℚ := (l.map (fun x => |x|)).foldr max 0

/-- `AudioFileHandler.postprocess` (src/tts_service.py:199-222).  The
silence-trimming call `librosa.effects.trim` is an external library call,
passed in as the function family `trim` taking the top-dB threshold, the
frame length and the hop length; the source invokes it with the default
arguments `top_db=60, frame_length=win_length=440, hop_length=220` and
then rescales the trimmed waveform so its peak does not exceed
`max_val = 0.8`. -/
def postprocess (trim : Nat → Nat → Nat → List ℚ → List ℚ) (speech : List ℚ) : List ℚ :=
  let trimmed := trim 60 440 220 speech
  if peakAbs trimmed > 4 / 5 then
    trimmed.map (fun x => x / peakAbs trimmed * (4 / 5))
  else
    trimmed

/-- A decoded multi-channel waveform: one sample list per channel
(`torchaudio.load` returns shape (channels, samples)). -/
abbrev Waveform := List (List ℚ)

/-- `speech.mean(dim=0, keepdim=True)`: pointwise average across the
channels. -/
def channelMean (w : Waveform) : List ℚ :=
  w.transpose.map (fun col => col.sum / (w.length : ℚ))

/-- `AudioFileHandler.load_wav` (src/tts_service.py:179-197): the decoded
channels and source rate produced by `torchaudio.load` are the inputs;
the function downmixes to mono and resamples only downward — a source
rate below the target trips `assert sample_rate > target_sr`, which the
surrounding `except` turns into a raised `ValueError` (here `.error`).
`resample` models `torchaudio.transforms.Resample(orig_freq, new_freq)`. -/
def load_wav (resample : Nat → Nat → List ℚ → List ℚ)
    (wave : Waveform) (sampleRate targetSr : Nat) : Except String (List ℚ) :=
  let speech := channelMean wave
  if sampleRate ≠ targetSr then
    if sampleRate > targetSr then
      .ok (resample sampleRate targetSr speech)
    else
      .error "音频文件加载失败"
  else
    .ok speech

/-- Truncation toward zero, Python `int(...)` on a numeric value. -/
def truncQ (q : ℚ) : Int := if 0 ≤ q then ⌊q⌋ else ⌈q⌉

/-- `sample_rate or 22050` (src/tts_service.py:73): a falsy argument —
omitted/`None` (here `none`) or `0` — is replaced by 22050. -/
def defaultSampleRate : Option Nat → Nat
  | none => 22050
  | some n => if n = 0 then 22050 else n

/-- The fields of `TTSRequest` (src/tts_service.py:61-80) that determine
the post-processing bookkeeping. -/
structure TTSRequest where
  speed : ℚ
  format : AudioFormat
  sampleRate : Nat
deriving DecidableEq, Repr

/-- `TTSRequest.__init__`: the stored sample rate is
`sample_rate or 22050`. -/
def mkTTSRequest (speed : ℚ) (format : AudioFormat) (sampleRate : Option Nat) :
    TTSRequest :=
  ⟨speed, format, defaultSampleRate sampleRate⟩

/-- `new_length = int(audio_np.shape[1] / request.speed)` followed by
`scipy.signal.resample(audio_np, new_length, axis=1)` when
`request.speed != 1.0` and the new length is positive
(src/tts_service.py:574-581); otherwise the waveform length is kept. -/
def speedAdjustedLen (speed : ℚ) (n : Nat) : Nat :=
  if speed ≠ 1 then
    let m := (truncQ ((n : ℚ) / speed)).toNat
    if 0 < m then m else n
  else
    n

/-- Output length of `torchaudio.transforms.Resample(orig, new)` on a
length-`n` input: `ceil(n * new / orig)` (model of the external resampler
invoked at src/tts_service.py:591-592). -/
def resampleLen (orig new n : Nat) : Nat := (n * new + orig - 1) / orig

/-- Sample-count and rate bookkeeping of one `_process_audio_result` run. -/
structure ProcessedAudio where
  samples : Nat
  rate : Nat
  resampled : Bool
deriving DecidableEq, Repr

/-- `CosyVoice2Engine._process_audio_result` (src/tts_service.py:569-615):
speed change by `1/speed` resampling, then resampling from the engine
native rate (`getattr(self.cosyvoice, 'sample_rate', 22050)`) to
`request.sample_rate or sample_rate` whenever the two differ. -/
def processAudioResult (req : TTSRequest) (nativeRate n : Nat) : ProcessedAudio :=
  let n1 := speedAdjustedLen req.speed n
  let target := if req.sampleRate = 0 then nativeRate else req.sampleRate
  if nativeRate ≠ target then
    ⟨resampleLen nativeRate target n1, target, true⟩
  else
    ⟨n1, nativeRate, false⟩

/-- Byte length of the WAV container written by `torchaudio.save(...,
format="wav")` for a mono float32 waveform of `n` samples: a fixed header
plus 4 bytes per sample.  Model of the external encoder; the streaming
and non-streaming paths call the identical encoder, so only the sample
counts matter to size comparisons. -/
def wavByteLength (n : Nat) : Nat := 44 + 4 * n

/-- `os.path.getsize(output_file)` for a WAV-format request after
`_process_audio_result` has saved the processed waveform
(src/tts_service.py:597-614). -/
def nonStreamingWavFileSize (req : TTSRequest) (nativeRate n : Nat) : Nat :=
  wavByteLength (processAudioResult req nativeRate n).samples

/-- Size of the in-memory WAV buffer produced by `synthesize_stream`
(src/tts_service.py:759-766): the raw engine output (`n` samples) is
encoded as WAV at the native rate with no speed adjustment, no resampling
and no attention to `request.format`. -/
def streamingBufferSize (n : Nat) : Nat := wavByteLength n

/-- The chunks yielded by `synthesize_stream` over the encoded buffer
(src/tts_service.py:767-770): fixed 8192-byte slices. -/
def streamingChunks (audioBytes : List Nat) : List (List Nat) :=
  chunksOf 8192 audioBytes

/-- Exit taken by the per-mode synthesis helper invoked from
`CosyVoice2Engine.synthesize` (src/tts_service.py:332-343): it either
returns a `TTSResult` (successful or failed) or raises, in which case the
outer `except` at line 360 catches and returns a failure result. -/
inductive HandlerOutcome where
  | returns (success : Bool)
  | raises
deriving DecidableEq, Repr

/-- `tempfile.gettempdir()`: the fixed directory under which every
`NamedTemporaryFile` path lives. -/
def tempDirPrefix : String := "/tmp"

/-- `path.startswith(tempfile.gettempdir())`, the cleanup guard used at
src/tts_service.py:352 and 775. -/
def inTempDir (p : String) : Bool := startsWithStr tempDirPrefix p

/-- Whether the reference-audio temp file still exists after
`CosyVoice2Engine.synthesize` (src/tts_service.py:305-366) completes, for
a call whose `prompt_audio` was a URL or byte buffer (so
`process_audio_input` created the file `tempPath`).  `validates` is the
`validate_audio_file` verdict: a failed validation returns a failure
result at lines 322-327 before reaching the cleanup at line 352, and a
raising handler jumps to the `except` at line 360, also skipping it; only
a handler that returns reaches the `startswith(gettempdir())` unlink. -/
def synthesizeTempSurvives (tempPath : String) (validates : Bool)
    (outcome : HandlerOutcome) : Bool :=
  if !validates then
    true
  else
    match outcome with
    | .raises => true
    | .returns _ => !(inTempDir tempPath)

/-- Whether the reference-audio temp file still exists after
`synthesize_stream` (src/tts_service.py:635-780) completes: the `finally`
block at lines 772-780 runs on every exit (normal completion or raising) and
unlinks `cleanup_path` exactly when it lies in the temp directory and does
not end with a protected fixture name. -/
def synthesizeStreamTempSurvives (tempPath : String)
    (_outcome : HandlerOutcome) : Bool :=
  !(inTempDir tempPath && !isProtectedFixture tempPath)

/-- The fields read from one JSON message by the WebSocket loop
(src/main.py:662-684); `none` models an absent key. -/
structure WsMessage where
  text : Option String
  mode : Option String
  format : Option String
deriving DecidableEq, Repr

/-- Envelope frames sent by the WebSocket handler
(src/main.py:667-711). -/
inductive WsEnvelope where
  | errorEnv (msg : String)
  | statusEnv
  | audioChunk (dataB64 : String)
  | endEnv
deriving DecidableEq, Repr

/-- Outcome of the streaming generator consumed inside the inner `try`
(src/main.py:688-712): the chunks sent before either completing or
raising with an error message (caught by the inner `except`). -/
structure StreamRun where
  chunks : List String
  failure : Option String
deriving DecidableEq, Repr

/-- One iteration of the WebSocket receive loop (src/main.py:660-712):
the envelopes sent for this message, and whether an exception escaped the
loop body.  A message without "text" is answered with an error envelope
and the loop continues; then `SynthesisMode(request_data.get("mode",
"basic"))` and `AudioFormat(request_data.get("format", "wav"))` are
evaluated outside any per-request handler and raise `ValueError` on a
non-member value; only afterwards does the inner `try` send the status
envelope, the audio chunks and the end/error envelope. -/
def wsIteration (run : StreamRun) (m : WsMessage) : List WsEnvelope × Bool :=
  match m.text with
  | none => ([.errorEnv "缺少必要的text参数"], false)
  | some _ =>
      match SynthesisMode.fromString (m.mode.getD "basic") with
      | none => ([], true)
      | some _ =>
          match AudioFormat.fromString (m.format.getD "wav") with
          | none => ([], true)
          | some _ =>
              match run.failure with
              | none =>
                  (.statusEnv :: (run.chunks.map .audioChunk ++ [.endEnv]), false)
              | some e =>
                  (.statusEnv :: (run.chunks.map .audioChunk ++
                    [.errorEnv ("合成失败: " ++ e)]), false)

/-- The connection loop (src/main.py:659-724): iterations run in sequence
until one raises; the outer `except` then sends one server-error envelope
(`serverErrMsg`, a message derived from the exception text) and the
receive loop for the connection ends, dropping all later messages. -/
def wsConnection (serverErrMsg : String) :
    List (StreamRun × WsMessage) → List WsEnvelope
  | [] => []
  | (run, m) :: rest =>
      let step := wsIteration run m
      if step.2 then
        step.1 ++ [.errorEnv serverErrMsg]
      else
        step.1 ++ wsConnection serverErrMsg rest

-- ===== Theorems =====

theorem isDifferentLanguage_iff (t1 t2 : String) :
    isDifferentLanguage t1 t2 = true ↔ scriptsExclusivelyDiffer t1 t2 := by
  unfold isDifferentLanguage scriptsExclusivelyDiffer exclusivelyChinese exclusivelyEnglish
  cases hc1 : hasChinese t1 <;> cases he1 : hasEnglish t1 <;>
    cases hc2 : hasChinese t2 <;> cases he2 : hasEnglish t2 <;> simp

theorem resolveAutoMode_transcript_branch (r : UltimateTTSRequest)
    (hm : r.mode = "auto") (hi : strSet r.instructText = false)
    (hp : strSet r.promptText = true) :
    resolveAutoMode r true =
      if r.language ≠ "zh" || isDifferentLanguage r.text (r.promptText.getD "") then
        "cross_lingual"
      else
        "zero_shot" := by
  unfold resolveAutoMode
  simp [hm, hi, hp]

/-- Claim C3 (amended): for every auto-mode request with a reference
transcript and reference audio present and no instruction text, the
resolved mode is cross_lingual iff the request language is not "zh" or the
text and the transcript are each exclusively one script and those scripts
differ; otherwise the resolved mode is zero_shot. -/
theorem claim3_cross_lingual_resolution (r : UltimateTTSRequest) (audioPresent : Bool)
    (hm : r.mode = "auto") (hi : strSet r.instructText = false)
    (hp : strSet r.promptText = true) (ha : audioPresent = true) :
    (resolveSynthesisMode r audioPresent = SynthesisMode.crossLingual ↔
      (r.language ≠ "zh" ∨ scriptsExclusivelyDiffer r.text (r.promptText.getD ""))) ∧
    (resolveSynthesisMode r audioPresent = SynthesisMode.crossLingual ∨
      resolveSynthesisMode r audioPresent = SynthesisMode.zeroShot) := by
  subst ha
  unfold resolveSynthesisMode
  rw [resolveAutoMode_transcript_branch r hm hi hp]
  by_cases hc : (r.language ≠ "zh" || isDifferentLanguage r.text (r.promptText.getD "")) = true
  · rw [if_pos hc]
    refine ⟨⟨fun _ => ?_, fun _ => by decide⟩, Or.inl (by decide)⟩
    rcases (Bool.or_eq_true _ _).mp hc with h | h
    · exact Or.inl (of_decide_eq_true h)
    · exact Or.inr ((isDifferentLanguage_iff _ _).mp h)
  · rw [if_neg hc]
    refine ⟨⟨fun h => absurd h (by decide), fun h => ?_⟩, Or.inr (by decide)⟩
    exfalso
    apply hc
    apply (Bool.or_eq_true _ _).mpr
    rcases h with h | h
    · exact Or.inl (decide_eq_true h)
    · exact Or.inr ((isDifferentLanguage_iff _ _).mpr h)

/-- Claim C3, as frozen, is false on the code: with language "en", a
Latin-only text and a Latin-only transcript (same script on both sides),
auto mode still resolves to cross_lingual, because `_ultimate_tts_impl`
also classifies as cross-lingual whenever `request.language != "zh"`
(src/main.py:522). -/
theorem claim3_counterexample :
    resolveSynthesisMode ⟨"hello", "auto", "en", some "hi", none, none⟩ true =
      SynthesisMode.crossLingual ∧
    ¬ scriptsExclusivelyDiffer "hello" "hi" := by
  constructor
  · decide
  · decide

/-- Witness for claim C3 at a concrete request: language "zh", Latin text,
CJK transcript. -/
theorem claim3_cross_lingual_resolution_witness :
    (resolveSynthesisMode ⟨"Hello", "auto", "zh", some "你好", none, none⟩ true =
        SynthesisMode.crossLingual ↔
      ((UltimateTTSRequest.mk "Hello" "auto" "zh" (some "你好") none none).language ≠ "zh" ∨
        scriptsExclusivelyDiffer "Hello" ((some "你好").getD ""))) ∧
    (resolveSynthesisMode ⟨"Hello", "auto", "zh", some "你好", none, none⟩ true =
        SynthesisMode.crossLingual ∨
      resolveSynthesisMode ⟨"Hello", "auto", "zh", some "你好", none, none⟩ true =
        SynthesisMode.zeroShot) :=
  claim3_cross_lingual_resolution ⟨"Hello", "auto", "zh", some "你好", none, none⟩ true
    rfl rfl (by decide) rfl

/-- Claim C4: for every auto-mode request whose instruction text is set and
whose reference audio is present, mode resolution yields instruct2,
regardless of all other request fields. -/
theorem claim4_instruct2_resolution (r : UltimateTTSRequest) (audioPresent : Bool)
    (hm : r.mode = "auto") (hi : strSet r.instructText = true) (ha : audioPresent = true) :
    resolveSynthesisMode r audioPresent = SynthesisMode.instruct2 := by
  subst ha
  unfold resolveSynthesisMode resolveAutoMode
  simp [hm, hi, modeMapping]

/-- Witness for claim C4 at a concrete request with all other fields
populated. -/
theorem claim4_instruct2_resolution_witness :
    resolveSynthesisMode
      ⟨"hello", "auto", "en", some "你好", some "calm voice", some "spk1"⟩ true =
      SynthesisMode.instruct2 :=
  claim4_instruct2_resolution
    ⟨"hello", "auto", "en", some "你好", some "calm voice", some "spk1"⟩ true
    rfl (by decide) rfl

theorem chunksOfAux_eq_nil_iff {α : Type} (k fuel : Nat) (l : List α) :
    chunksOfAux k fuel l = [] ↔ (fuel = 0 ∨ l = []) := by
  cases fuel with
  | zero => simp [chunksOfAux]
  | succ f =>
    cases l with
    | nil => simp [chunksOfAux]
    | cons a as => simp [chunksOfAux]

theorem chunksOfAux_flatten {α : Type} (k : Nat) (hk : k ≠ 0) :
    ∀ fuel : Nat, ∀ l : List α, l.length ≤ fuel →
      (chunksOfAux k fuel l).flatten = l := by
  intro fuel
  induction fuel with
  | zero =>
    intro l h
    have : l = [] := List.eq_nil_of_length_eq_zero (Nat.le_zero.mp h)
    subst this
    simp [chunksOfAux]
  | succ f ih =>
    intro l h
    cases l with
    | nil => simp [chunksOfAux]
    | cons a as =>
      have h2 : 0 < k := Nat.pos_of_ne_zero hk
      have hdrop : ((a :: as).drop k).length ≤ f := by
        simp only [List.length_drop, List.length_cons]
        simp only [List.length_cons] at h
        omega
      simp only [chunksOfAux, List.flatten_cons, ih _ hdrop]
      exact List.take_append_drop k (a :: as)

theorem chunksOf_flatten {α : Type} (k : Nat) (hk : k ≠ 0) (l : List α) :
    (chunksOf k l).flatten = l :=
  chunksOfAux_flatten k hk l.length l (Nat.le_refl _)

theorem chunksOfAux_mem_length_le {α : Type} (k : Nat) :
    ∀ fuel : Nat, ∀ l : List α, ∀ c ∈ chunksOfAux k fuel l, c.length ≤ k := by
  intro fuel
  induction fuel with
  | zero =>
    intro l c hc
    simp [chunksOfAux] at hc
  | succ f ih =>
    intro l c hc
    cases l with
    | nil => simp [chunksOfAux] at hc
    | cons a as =>
      simp only [chunksOfAux] at hc
      rcases List.mem_cons.mp hc with rfl | hc
      · simp [List.length_take]
      · exact ih _ c hc

theorem chunksOf_mem_length_le {α : Type} (k : Nat) (l : List α) :
    ∀ c ∈ chunksOf k l, c.length ≤ k :=
  chunksOfAux_mem_length_le k l.length l

theorem chunksOfAux_dropLast_length {α : Type} (k : Nat) (hk : k ≠ 0) :
    ∀ fuel : Nat, ∀ l : List α, l.length ≤ fuel →
      ∀ c ∈ (chunksOfAux k fuel l).dropLast, c.length = k := by
  intro fuel
  induction fuel with
  | zero =>
    intro l _ c hc
    simp [chunksOfAux] at hc
  | succ f ih =>
    intro l h c hc
    cases l with
    | nil => simp [chunksOfAux] at hc
    | cons a as =>
      have h2 : 0 < k := Nat.pos_of_ne_zero hk
      have hdrop : ((a :: as).drop k).length ≤ f := by
        simp only [List.length_drop, List.length_cons]
        simp only [List.length_cons] at h
        omega
      simp only [chunksOfAux] at hc
      cases hr : chunksOfAux k f ((a :: as).drop k) with
      | nil =>
        rw [hr] at hc
        simp at hc
      | cons b t =>
        rw [hr, List.dropLast_cons₂] at hc
        rcases List.mem_cons.mp hc with rfl | hc
        · have hd : (a :: as).drop k ≠ [] := by
            intro hnil
            rw [(chunksOfAux_eq_nil_iff k f _).mpr (Or.inr hnil)] at hr
            exact List.noConfusion hr
          have hkl : k ≤ (a :: as).length := by
            by_contra hgt
            exact hd (List.drop_eq_nil_of_le (Nat.le_of_not_le hgt))
          simp only [List.length_take, List.length_cons]
          simp only [List.length_cons] at hkl
          omega
        · have hrec := ih _ hdrop c
          rw [hr] at hrec
          exact hrec hc

theorem chunksOf_dropLast_length {α : Type} (k : Nat) (hk : k ≠ 0) (l : List α) :
    ∀ c ∈ (chunksOf k l).dropLast, c.length = k :=
  chunksOfAux_dropLast_length k hk l.length l (Nat.le_refl _)

/-- Claim C6: deleting a speaker id that is not in the registry returns a
not-found failure result and leaves both the registry mapping and the
file system unchanged. -/
theorem claim6_delete_unknown_speaker (reg : SpeakerRegistry) (fs : FileSystem)
    (spkId : String) (h : reg.lookup spkId = none) :
    deleteCustomSpeaker reg fs spkId = (⟨false, some "音色不存在"⟩, reg, fs) := by
  unfold deleteCustomSpeaker
  rw [h]

/-- Witness for claim C6: deleting an absent id from a one-entry registry
changes nothing. -/
theorem claim6_delete_unknown_speaker_witness :
    deleteCustomSpeaker [("0123456789abcdef", sampleSpeakerInfo)]
        ["custom_speakers/0123456789abcdef.wav"] "missing-id" =
      (⟨false, some "音色不存在"⟩, [("0123456789abcdef", sampleSpeakerInfo)],
        ["custom_speakers/0123456789abcdef.wav"]) :=
  claim6_delete_unknown_speaker _ _ _ (by decide)

theorem natToLEBytes_length : ∀ (k x : Nat), (natToLEBytes x k).length = k := by
  intro k
  induction k with
  | zero => intro x; rfl
  | succ k ih =>
    intro x
    simp [natToLEBytes, ih]

theorem md5Bytes_length (msg : List Nat) : (md5Bytes msg).length = 16 := by
  unfold md5Bytes
  simp [natToLEBytes_length]

theorem flatten_map_byteToHex_length :
    ∀ l : List Nat, ((l.map byteToHex).flatten).length = 2 * l.length := by
  intro l
  induction l with
  | nil => rfl
  | cons b t ih =>
    simp only [List.map_cons, List.flatten_cons, List.length_append, ih,
      List.length_cons, byteToHex, List.length_cons, List.length_nil]
    omega

theorem md5Hex_length (msg : List Nat) : (md5Hex msg).length = 32 := by
  unfold md5Hex
  rw [flatten_map_byteToHex_length, md5Bytes_length]

theorem makeSpeakerId_length (n t : String) : (makeSpeakerId n t).length = 16 := by
  show ((md5Hex (strBytes (n ++ "_" ++ t))).take 16).length = 16
  rw [List.length_take, md5Hex_length]
  decide

set_option maxRecDepth 20000 in
theorem makeSpeakerId_test_vector : makeSpeakerId "alice" "hello" = "0e10d547c564e89c" := by
  decide

/-- Claim C5: any two successful durable-speaker registrations with
identical name and transcript return the same speaker id; the id is
`some (makeSpeakerId name transcript)` — a fixed-width (16 hex character)
function of name and transcript only, independent of the audio supplied,
of the validation and path oracles, and of the registry state. -/
theorem claim5_speaker_id_deterministic
    (v1 v2 : Bool) (pe1 pe2 : String → Bool) (name transcript : String)
    (a1 a2 : AudioInput) (pp1 pp2 : String) (d1 d2 : Option String)
    (reg1 reg2 : SpeakerRegistry)
    (h1 : (addCustomSpeaker v1 pe1 name transcript a1 pp1 d1 reg1).1.success = true)
    (h2 : (addCustomSpeaker v2 pe2 name transcript a2 pp2 d2 reg2).1.success = true) :
    (addCustomSpeaker v1 pe1 name transcript a1 pp1 d1 reg1).1.speakerId =
        (addCustomSpeaker v2 pe2 name transcript a2 pp2 d2 reg2).1.speakerId ∧
    (addCustomSpeaker v1 pe1 name transcript a1 pp1 d1 reg1).1.speakerId =
        some (makeSpeakerId name transcript) ∧
    (makeSpeakerId name transcript).length = 16 := by
  cases v1 with
  | false => simp [addCustomSpeaker] at h1
  | true =>
    cases v2 with
    | false => simp [addCustomSpeaker] at h2
    | true =>
      refine ⟨?_, ?_, makeSpeakerId_length name transcript⟩ <;>
        simp [addCustomSpeaker]

/-- Witness for claim C5: two concrete registrations with the same name
and transcript but different audio inputs, oracles and registries. -/
theorem claim5_speaker_id_deterministic_witness :
    (addCustomSpeaker true (fun _ => false) "alice" "hello" AudioInput.bytes
        "/tmp/tmpaaa.wav" none []).1.speakerId =
      (addCustomSpeaker true (fun _ => true) "alice" "hello" (AudioInput.str "ref.wav")
        "/tmp/tmpbbb.wav" (some "desc") [("k0", sampleSpeakerInfo)]).1.speakerId ∧
    (addCustomSpeaker true (fun _ => false) "alice" "hello" AudioInput.bytes
        "/tmp/tmpaaa.wav" none []).1.speakerId = some (makeSpeakerId "alice" "hello") ∧
    (makeSpeakerId "alice" "hello").length = 16 :=
  claim5_speaker_id_deterministic true true (fun _ => false) (fun _ => true)
    "alice" "hello" AudioInput.bytes (AudioInput.str "ref.wav")
    "/tmp/tmpaaa.wav" "/tmp/tmpbbb.wav" none (some "desc")
    [] [("k0", sampleSpeakerInfo)] rfl rfl

theorem peakAbs_nil : peakAbs [] = 0 := rfl

theorem peakAbs_cons (x : ℚ) (l : List ℚ) : peakAbs (x :: l) = max |x| (peakAbs l) := rfl

theorem peakAbs_nonneg (l : List ℚ) : 0 ≤ peakAbs l := by
  induction l with
  | nil => exact le_refl 0
  | cons x t ih =>
    rw [peakAbs_cons]
    exact le_trans ih (le_max_right _ _)

theorem peakAbs_smul (c : ℚ) (hc : 0 ≤ c) (l : List ℚ) :
    peakAbs (l.map (fun x => c * x)) = c * peakAbs l := by
  induction l with
  | nil => simp [peakAbs]
  | cons x t ih =>
    rw [List.map_cons, peakAbs_cons, peakAbs_cons, ih, abs_mul, abs_of_nonneg hc]
    exact (mul_max_of_nonneg _ _ hc).symm

/-- Claim C7: `postprocess` first trims silence via the external
energy-threshold algorithm with the fixed parameters (top_db 60, frame 440,
hop 220), then guarantees the output peak never exceeds 0.8: the trimmed
waveform is returned unchanged when its peak is already at most 0.8, and
otherwise it is uniformly scaled (every sample multiplied by the same
factor, preserving relative dynamics) so that the output peak is exactly
0.8. -/
theorem claim7_postprocess_peak (trim : Nat → Nat → Nat → List ℚ → List ℚ)
    (speech : List ℚ) :
    peakAbs (postprocess trim speech) ≤ 4 / 5 ∧
    postprocess trim speech =
      (if peakAbs (trim 60 440 220 speech) ≤ 4 / 5 then
        trim 60 440 220 speech
       else
        (trim 60 440 220 speech).map
          (fun x => x / peakAbs (trim 60 440 220 speech) * (4 / 5))) ∧
    peakAbs (postprocess trim speech) =
      min (peakAbs (trim 60 440 220 speech)) (4 / 5) := by
  unfold postprocess
  by_cases h : peakAbs (trim 60 440 220 speech) ≤ 4 / 5
  · rw [if_neg (not_lt.mpr h), if_pos h]
    exact ⟨h, rfl, (min_eq_left h).symm⟩
  · have hgt : peakAbs (trim 60 440 220 speech) > 4 / 5 := not_le.mp h
    have hpos : 0 < peakAbs (trim 60 440 220 speech) := by
      have : (0 : ℚ) < 4 / 5 := by norm_num
      exact lt_trans this hgt
    have hfun : (fun x : ℚ => x / peakAbs (trim 60 440 220 speech) * (4 / 5)) =
        fun x : ℚ => (4 / 5 / peakAbs (trim 60 440 220 speech)) * x := by
      funext x
      ring
    have hscaled : peakAbs ((trim 60 440 220 speech).map
        (fun x => x / peakAbs (trim 60 440 220 speech) * (4 / 5))) = 4 / 5 := by
      rw [hfun, peakAbs_smul _ (by positivity) _]
      field_simp
      ring
    rw [if_pos hgt, if_neg h]
    refine ⟨le_of_eq hscaled, rfl, ?_⟩
    rw [hscaled, min_eq_right (le_of_lt hgt)]

/-- Claim C8: `load_wav` fails on any source rate strictly below the
target (never silently upsamples); at exactly the target rate it returns
the channel-averaged mono waveform untouched — the right-hand side of that
branch does not mention the resampler at all (identity path); above the
target rate it returns the mono waveform resampled down to the target. -/
theorem claim8_load_wav_rate_policy (resample : Nat → Nat → List ℚ → List ℚ)
    (wave : Waveform) (sampleRate targetSr : Nat) :
    load_wav resample wave sampleRate targetSr =
      (if sampleRate < targetSr then
        .error "音频文件加载失败"
       else if sampleRate = targetSr then
        .ok (channelMean wave)
       else
        .ok (resample sampleRate targetSr (channelMean wave))) := by
  unfold load_wav
  by_cases he : sampleRate = targetSr
  · subst he
    simp
  · have hne : sampleRate ≠ targetSr := he
    by_cases hgt : targetSr < sampleRate
    · have hnlt : ¬ sampleRate < targetSr := by omega
      simp [hne, hgt, hnlt]
    · have hlt : sampleRate < targetSr := by omega
      have hngt : ¬ targetSr < sampleRate := hgt
      simp [hne, hngt, hlt]

/-- Claim C9: a `TTSRequest` constructed with `sample_rate` omitted,
`None`, or `0` stores 22050; consequently, whenever the engine native rate
differs from 22050 and the caller specified no rate, the non-streaming
post-processing takes the resampling branch and the output rate is
22050 — never the native rate. -/
theorem claim9_default_sample_rate (speed : ℚ) (format : AudioFormat)
    (nativeRate n : Nat) (h : nativeRate ≠ 22050) :
    (mkTTSRequest speed format none).sampleRate = 22050 ∧
    (mkTTSRequest speed format (some 0)).sampleRate = 22050 ∧
    (processAudioResult (mkTTSRequest speed format none) nativeRate n).resampled = true ∧
    (processAudioResult (mkTTSRequest speed format none) nativeRate n).rate = 22050 := by
  have key : processAudioResult (mkTTSRequest speed format none) nativeRate n =
      ⟨resampleLen nativeRate 22050 (speedAdjustedLen speed n), 22050, true⟩ := by
    unfold processAudioResult
    simp [mkTTSRequest, defaultSampleRate, h]
  exact ⟨rfl, rfl, by rw [key], by rw [key]⟩

/-- Witness for claim C9 at the engine's actual native rate 24000. -/
theorem claim9_default_sample_rate_witness :
    (mkTTSRequest 1 AudioFormat.wav none).sampleRate = 22050 ∧
    (mkTTSRequest 1 AudioFormat.wav (some 0)).sampleRate = 22050 ∧
    (processAudioResult (mkTTSRequest 1 AudioFormat.wav none) 24000 24000).resampled = true ∧
    (processAudioResult (mkTTSRequest 1 AudioFormat.wav none) 24000 24000).rate = 22050 :=
  claim9_default_sample_rate 1 AudioFormat.wav 24000 24000 (by decide)

/-- Claim C1, as frozen, is false: for a request with speed 2.0 (WAV
format, default sample rate, native rate 22050, a successful synthesis of
16000 engine samples) the non-streaming pipeline halves the sample count
before encoding while the streaming path encodes the raw engine output and
ignores the speed, so the streamed byte total differs from the artifact's
byte size. -/
theorem claim1_counterexample :
    streamingBufferSize 16000 ≠
      nonStreamingWavFileSize (mkTTSRequest 2 AudioFormat.wav none) 22050 16000 := by
  have h1 : ((16000 : ℚ) / 2) = 8000 := by norm_num
  have h2 : truncQ 8000 = 8000 := by
    unfold truncQ
    rw [if_pos (by norm_num)]
    norm_num
  have hsp : speedAdjustedLen 2 16000 = 8000 := by
    unfold speedAdjustedLen
    rw [if_pos (by norm_num)]
    show (if 0 < (truncQ ((16000 : ℚ) / 2)).toNat then (truncQ ((16000 : ℚ) / 2)).toNat
      else 16000) = 8000
    rw [h1, h2]
    decide
  have key : nonStreamingWavFileSize (mkTTSRequest 2 AudioFormat.wav none) 22050 16000
      = wavByteLength (speedAdjustedLen 2 16000) := by
    unfold nonStreamingWavFileSize processAudioResult
    norm_num [mkTTSRequest, defaultSampleRate]
  rw [key, hsp]
  decide

/-- Claim C1 (amended): for a successful request whose speed is 1.0, whose
format is WAV and whose stored sample rate equals the engine native rate,
the concatenation of the chunks yielded by the streaming path is exactly
the encoded buffer and its byte length equals the non-streaming artifact's
byte size; the buffer is yielded in fixed 8192-byte chunks — every chunk
before the last has exactly 8192 bytes and every chunk has at most 8192. -/
theorem claim1_stream_matches_file (req : TTSRequest) (nativeRate n : Nat)
    (audioBytes : List Nat)
    (hlen : audioBytes.length = streamingBufferSize n)
    (hs : req.speed = 1) (hf : req.format = AudioFormat.wav)
    (hr : req.sampleRate = nativeRate) :
    ((streamingChunks audioBytes).flatten = audioBytes ∧
     (streamingChunks audioBytes).flatten.length =
       nonStreamingWavFileSize req nativeRate n) ∧
    (∀ c ∈ (streamingChunks audioBytes).dropLast, c.length = 8192) ∧
    (∀ c ∈ streamingChunks audioBytes, c.length ≤ 8192) := by
  have hflat : (streamingChunks audioBytes).flatten = audioBytes :=
    chunksOf_flatten 8192 (by decide) audioBytes
  have hsize : nonStreamingWavFileSize req nativeRate n = streamingBufferSize n := by
    unfold nonStreamingWavFileSize processAudioResult
    have htarget : (if req.sampleRate = 0 then nativeRate else req.sampleRate) =
        nativeRate := by
      rw [hr]
      by_cases h0 : nativeRate = 0
      · simp [h0]
      · simp [h0]
    rw [htarget]
    simp [speedAdjustedLen, hs, streamingBufferSize]
  refine ⟨⟨hflat, ?_⟩, chunksOf_dropLast_length 8192 (by decide) audioBytes,
    chunksOf_mem_length_le 8192 audioBytes⟩
  rw [hflat, hlen, hsize]

/-- Witness for claim C1 at a concrete request and buffer. -/
theorem claim1_stream_matches_file_witness :
    ((streamingChunks (List.replicate 48 0)).flatten = List.replicate 48 0 ∧
     (streamingChunks (List.replicate 48 0)).flatten.length =
       nonStreamingWavFileSize (mkTTSRequest 1 AudioFormat.wav none) 22050 1) ∧
    (∀ c ∈ (streamingChunks (List.replicate 48 (0 : Nat))).dropLast, c.length = 8192) ∧
    (∀ c ∈ streamingChunks (List.replicate 48 (0 : Nat)), c.length ≤ 8192) :=
  claim1_stream_matches_file (mkTTSRequest 1 AudioFormat.wav none) 22050 1
    (List.replicate 48 0) (by decide) rfl rfl rfl

/-- Claim C2, as frozen, is false on the non-streaming path: when the
reference audio comes from a byte buffer or URL and fails validation,
`synthesize` returns a failure result through the early `return` at
src/tts_service.py:322-327, skipping the cleanup at line 352, and the
temporary file still exists on disk. -/
theorem claim2_counterexample :
    synthesizeTempSurvives "/tmp/tmp12345.wav" false (HandlerOutcome.returns false) =
      true := by
  decide

/-- Claim C2 (amended): for calls that create a temporary reference-audio
file (a path under the temp directory, never matching a protected fixture
name), the streaming path deletes it on every exit; the non-streaming path
deletes it exactly when the reference audio validates and the mode handler
returns a result rather than raising — on a validation failure or a
raising handler the call still returns a failure result but the file is
leaked. -/
theorem claim2_temp_cleanup (tempPath : String) (validates : Bool)
    (outcome : HandlerOutcome)
    (htmp : inTempDir tempPath = true)
    (hfix : isProtectedFixture tempPath = false) :
    synthesizeStreamTempSurvives tempPath outcome = false ∧
    synthesizeTempSurvives tempPath validates outcome =
      (!validates || decide (outcome = HandlerOutcome.raises)) := by
  constructor
  · unfold synthesizeStreamTempSurvives
    rw [htmp, hfix]
    decide
  · unfold synthesizeTempSurvives
    cases validates with
    | false => rfl
    | true =>
      cases outcome with
      | returns s =>
        rw [htmp]
        have hd : decide (HandlerOutcome.returns s = HandlerOutcome.raises) = false :=
          decide_eq_false (fun h => HandlerOutcome.noConfusion h)
        rw [hd]
        rfl
      | raises => rfl

/-- Witness for claim C2 at a concrete temp path, with a validated input
and a returning handler: the file is gone on both paths. -/
theorem claim2_temp_cleanup_witness :
    synthesizeStreamTempSurvives "/tmp/tmpref99.wav" (HandlerOutcome.returns true) =
      false ∧
    synthesizeTempSurvives "/tmp/tmpref99.wav" true (HandlerOutcome.returns true) =
      (!true || decide (HandlerOutcome.returns true = HandlerOutcome.raises)) :=
  claim2_temp_cleanup "/tmp/tmpref99.wav" true (HandlerOutcome.returns true)
    (by decide) (by decide)

/-- Claim C10: in the WebSocket loop, a JSON message lacking "text" is the
single malformed shape handled in-loop — it yields one error envelope and
the loop continues; a message with "text" whose mode or format value is
not an enum member makes the loop body raise before anything is sent (no
status envelope, no per-request error envelope) and that is the only way
an iteration raises, terminating the receive loop through the outer
handler, which drops all later messages after one server-error envelope. -/
theorem claim10_ws_malformed_handling (run : StreamRun) (m : WsMessage) :
    (m.text = none →
      wsIteration run m = ([WsEnvelope.errorEnv "缺少必要的text参数"], false)) ∧
    (∀ t, m.text = some t →
      ((SynthesisMode.fromString (m.mode.getD "basic")).isNone
        || (AudioFormat.fromString (m.format.getD "wav")).isNone) = true →
      wsIteration run m = ([], true)) ∧
    ((wsIteration run m).2 = (m.text.isSome &&
      ((SynthesisMode.fromString (m.mode.getD "basic")).isNone
        || (AudioFormat.fromString (m.format.getD "wav")).isNone))) ∧
    (∀ serverErrMsg rest, (wsIteration run m).2 = true →
      wsConnection serverErrMsg ((run, m) :: rest) =
        (wsIteration run m).1 ++ [WsEnvelope.errorEnv serverErrMsg]) := by
  obtain ⟨mt, mm, mf⟩ := m
  refine ⟨?_, ?_, ?_, ?_⟩
  · intro h
    cases mt with
    | none => rfl
    | some t0 => exact absurd h (Option.some_ne_none t0)
  · intro t ht hbad
    cases mt with
    | none => exact Option.noConfusion ht
    | some t0 =>
      show (match SynthesisMode.fromString (mm.getD "basic") with
        | none => (([] : List WsEnvelope), true)
        | some _ =>
          match AudioFormat.fromString (mf.getD "wav") with
          | none => ([], true)
          | some _ =>
            match run.failure with
            | none => (.statusEnv :: (run.chunks.map .audioChunk ++ [.endEnv]), false)
            | some e => (.statusEnv :: (run.chunks.map .audioChunk ++
                [.errorEnv ("合成失败: " ++ e)]), false)) = ([], true)
      cases hm : SynthesisMode.fromString (mm.getD "basic") with
      | none => rfl
      | some sm =>
        cases hf : AudioFormat.fromString (mf.getD "wav") with
        | none => rfl
        | some fm =>
          rw [hm, hf] at hbad
          exact absurd hbad (by simp)
  · cases mt with
    | none => rfl
    | some t0 =>
      cases hm : SynthesisMode.fromString (mm.getD "basic") with
      | none => simp [wsIteration, hm]
      | some sm =>
        cases hf : AudioFormat.fromString (mf.getD "wav") with
        | none => simp [wsIteration, hm, hf]
        | some fm =>
          cases hr : run.failure with
          | none => simp [wsIteration, hm, hf, hr]
          | some e => simp [wsIteration, hm, hf, hr]
  · intro serverErrMsg rest hraise
    show (if (wsIteration run ⟨mt, mm, mf⟩).2 then
        (wsIteration run ⟨mt, mm, mf⟩).1 ++ [WsEnvelope.errorEnv serverErrMsg]
      else (wsIteration run ⟨mt, mm, mf⟩).1 ++ wsConnection serverErrMsg rest) =
      (wsIteration run ⟨mt, mm, mf⟩).1 ++ [WsEnvelope.errorEnv serverErrMsg]
    rw [hraise]
    simp

/-- Witness for claim C10 at concrete messages: a missing-text message is
answered in-loop, and a bad mode value raises with nothing sent, ending a
connection that still had a pending message. -/
theorem claim10_ws_malformed_handling_witness :
    wsIteration ⟨["QUJD"], none⟩ ⟨none, some "basic", some "wav"⟩ =
      ([WsEnvelope.errorEnv "缺少必要的text参数"], false) ∧
    wsIteration ⟨["QUJD"], none⟩ ⟨some "你好", some "instruct3", some "wav"⟩ =
      ([], true) ∧
    wsConnection "服务器错误"
        [(⟨["QUJD"], none⟩, ⟨some "你好", some "instruct3", some "wav"⟩),
         (⟨["QUJD"], none⟩, ⟨some "后续", some "basic", some "wav"⟩)] =
      [WsEnvelope.errorEnv "服务器错误"] :=
  ⟨(claim10_ws_malformed_handling ⟨["QUJD"], none⟩ ⟨none, some "basic", some "wav"⟩).1 rfl,
   (claim10_ws_malformed_handling ⟨["QUJD"], none⟩
      ⟨some "你好", some "instruct3", some "wav"⟩).2.1 "你好" rfl (by decide),
   by
    have h := (claim10_ws_malformed_handling ⟨["QUJD"], none⟩
      ⟨some "你好", some "instruct3", some "wav"⟩)
    have h2 := h.2.2.2 "服务器错误"
      [(⟨["QUJD"], none⟩, ⟨some "后续", some "basic", some "wav"⟩)]
      (by rw [h.2.1 "你好" rfl (by decide)])
    rw [h2, h.2.1 "你好" rfl (by decide)]
    rfl⟩

end CosyVoice2
